import Mathlib

/-!
Shallow embedding of the swayami-backend authentication resolution path
(src/app/auth.py), user repository (src/app/repositories/user_repository.py)
and AI generation facade (src/app/services/openai_service.py), together with
theorems settling the frozen claims about the natural-language specification.

Machine-level conventions of the embedding:
* Python `Optional` values and JSON-absent keys become `Option`.
* Unix timestamps are `Nat`; the current time is passed explicitly as `now`.
* A credential string is abstracted by the outcomes of its two decoders: the
  result of `jwt.decode` (none models `jwt.DecodeError`) and the result of
  `base64.b64decode(token).decode("utf-8")` (none models any exception).
* The external OpenAI call plus JSON parsing is abstracted by an `Option`
  parameter: `none` models any exception raised inside the `try` block
  (network error, timeout, `json.loads` failure, shape mismatch), `some r`
  models a successfully parsed structured result.
* Exceptions that a Python function converts to `None` (or to a fallback
  value) are modelled by the corresponding `Option`/total result; functions
  that raise `HTTPException` to the caller return `none` for that case.
* The Pydantic model classes live in app/models.py, which is not part of the
  provided sources; their fields are reconstructed from every construction
  and field-access site in the provided files and from the specification.
-/

/-- Fixed development settings from src/app/config.py (lines 23 to 25). -/
def settings_mock_user_email : String := "contact.pavansb@gmail.com"

/-- Fixed development password from src/app/config.py (line 24). -/
def settings_mock_user_password : String := "test123"

/-- Fixed development user id from src/app/config.py (line 25). -/
def settings_mock_user_id : String := "user_123"

/-- Configured Supabase issuer URL from src/app/auth.py (line 24). -/
def supabase_url : String := "https://pbeborjasiiwuudfnzhm.supabase.co"

/-- MongoDB primary key: either a structured binary ObjectId (identified by
its 24-hex-character string form) or a plain string key.  `str` applied to an
ObjectId yields the hex string, which is how user_repository.py stringifies
keys before building `User` values. -/
inductive MongoId where
  | oid : String → MongoId
  | str : String → MongoId
deriving DecidableEq, Repr

/-- String form of a stored key, as produced by `str(user_data["_id"])` in
user_repository.py. -/
def idString : MongoId → String
  | .oid s => s
  | .str s => s

/-- Persisted user document fields (without the `_id` key).  Field set
reconstructed from create_user in src/app/repositories/user_repository.py and
the update endpoints in src/app/api/users.py; app/models.py itself is absent
from the sources. -/
structure UserDoc where
  email : String
  name : String
  has_completed_onboarding : Bool
  streak : Nat
  level : String
  theme : String
  created_at : Nat
  updated_at : Nat
deriving DecidableEq, Repr

/-- A document of the `users` collection: a primary key plus the fields. -/
structure Doc where
  key : MongoId
  user : UserDoc
deriving DecidableEq, Repr

/-- The `User` Pydantic model as returned by the repository: the stringified
key plus the stored fields. -/
structure User where
  id : String
  email : String
  name : String
  has_completed_onboarding : Bool
  streak : Nat
  level : String
  theme : String
  created_at : Nat
  updated_at : Nat
deriving DecidableEq, Repr

/-- Conversion performed by `user_data["_id"] = str(user_data["_id"]); return
User(**user_data)` in user_repository.py. -/
def userOfDoc (d : Doc) : User :=
  { id := idString d.key
    email := d.user.email
    name := d.user.name
    has_completed_onboarding := d.user.has_completed_onboarding
    streak := d.user.streak
    level := d.user.level
    theme := d.user.theme
    created_at := d.user.created_at
    updated_at := d.user.updated_at }

/-- Model of `collection.find_one({"_id": k})`: first document whose key
equals `k`. -/
def find_one_by_id (db : List Doc) (k : MongoId) : Option Doc :=
  db.find? (fun d => d.key = k)

/-- UserRepository.get_user_by_email (src/app/repositories/user_repository.py
lines 81 to 93): `find_one({"email": email})`, stringify the key, build a
`User`. -/
def get_user_by_email (db : List Doc) (email : String) : Option User :=
  (db.find? (fun d => d.user.email = email)).map userOfDoc

/-- Validity predicate of the `ObjectId(user_id)` constructor on a string
argument: exactly 24 hexadecimal characters, otherwise it raises. -/
def isHexChar (c : Char) : Bool :=
  c.isDigit || ('a' ≤ c && c ≤ 'f') || ('A' ≤ c && c ≤ 'F')

/-- Whether `ObjectId(s)` succeeds for a string `s`. -/
def isValidObjectId (s : String) : Bool :=
  s.length = 24 && s.data.all isHexChar

/-- UserRepository.get_user_by_id (src/app/repositories/user_repository.py
lines 43 to 79): try `ObjectId(user_id)` first (an invalid string raises, the
exception is caught); if that query finds nothing, fall back to querying with
the plain string key. -/
def get_user_by_id (db : List Doc) (user_id : String) : Option User :=
  match (if isValidObjectId user_id then find_one_by_id db (.oid user_id) else none) with
  | some d => some (userOfDoc d)
  | none => (find_one_by_id db (.str user_id)).map userOfDoc

/-- Decoded JWT claim set, as produced by `jwt.decode(token,
options=verify_signature False)` in src/app/auth.py line 61.  Absent and
JSON-null claims are both `none`. -/
structure JwtPayload where
  iss : Option String
  exp : Option Nat
  email : Option String
  sub : Option String
deriving DecidableEq, Repr

/-- A credential string, abstracted by the outcomes of its two decoders:
`jwtPayload` is the result of `jwt.decode` (none models `jwt.DecodeError`),
`b64` the result of `base64.b64decode(token).decode("utf-8")` (none models
any exception).  A base64 alphabet string contains no dot, so a credential
produced by `create_access_token` always has `jwtPayload = none`; a JWT
contains two dots, so its `b64` decoding usually fails as well. -/
structure Token where
  jwtPayload : Option JwtPayload
  b64 : Option String
deriving DecidableEq, Repr

/-- SupabaseAuthService.verify_jwt_token (src/app/auth.py lines 52 to 83).
Signature verification is skipped; the issuer must equal the configured URL;
the token is rejected for expiration only when the `exp` claim is truthy in
Python (present and nonzero) and `datetime.fromtimestamp(exp)` is strictly
before the current time. -/
def verify_jwt_token (decoded : Option JwtPayload) (now : Nat) : Option JwtPayload :=
  match decoded with
  | none => none
  | some p =>
    if p.iss = some supabase_url then
      match p.exp with
      | none => some p
      | some e => if e ≠ 0 ∧ e < now then none else some p
    else none

/-- SupabaseAuthService.get_user_from_token (src/app/auth.py lines 85 to
113): verify the JWT, require a truthy `email` claim, look the email up in
MongoDB and return the stringified user id. -/
def supabase_get_user_from_token (db : List Doc) (now : Nat) (tok : Token) : Option String :=
  match verify_jwt_token tok.jwtPayload now with
  | none => none
  | some p =>
    match p.email with
    | none => none
    | some e => if e = "" then none else (get_user_by_email db e).map (fun u => u.id)

/-- List splitting at the first occurrence of a separator, mirroring Python
`s.split(sep, 1)` when the separator occurs: returns the part before the
first separator and everything after it. -/
def splitFirst (sep : Char) : List Char → Option (List Char × List Char)
  | [] => none
  | c :: cs =>
    if c = sep then some ([], cs)
    else (splitFirst sep cs).map (fun p => (c :: p.1, p.2))

/-- LegacyAuthService.decode_mock_token (src/app/auth.py lines 118 to 128):
base64-decode the token (the outcome is the `Option String` argument); if the
decoded text contains a colon, return everything after the first colon as the
email, otherwise none. -/
def decode_mock_token (b64 : Option String) : Option String :=
  match b64 with
  | none => none
  | some s => (splitFirst ':' s.data).map (fun p => String.mk p.2)

/-- LegacyAuthService.get_user_id_from_email (src/app/auth.py lines 130 to
139). -/
def get_user_id_from_email (db : List Doc) (email : String) : Option String :=
  (get_user_by_email db email).map (fun u => u.id)

/-- UnifiedAuthService.verify_credentials (src/app/auth.py lines 155 to 158):
the fixed development credential check. -/
def verify_credentials (email password : String) : Bool :=
  email = settings_mock_user_email && password = settings_mock_user_password

/-- The legacy fallback block of UnifiedAuthService.get_user_from_token
(src/app/auth.py lines 194 to 205): decode the mock token, require a truthy
email, look it up, require a truthy user id. -/
def legacy_resolve (db : List Doc) (b64 : Option String) : Option String :=
  match decode_mock_token b64 with
  | none => none
  | some email =>
    if email = "" then none
    else
      match get_user_id_from_email db email with
      | none => none
      | some uid => if uid = "" then none else some uid

/-- UnifiedAuthService.get_user_from_token (src/app/auth.py lines 183 to
205): try the Supabase JWT path first, then the legacy mock-token path. -/
def unified_get_user_from_token (db : List Doc) (now : Nat) (tok : Token) : Option String :=
  match supabase_get_user_from_token db now tok with
  | some uid => some uid
  | none => legacy_resolve db tok.b64

/-- get_current_user_id (src/app/auth.py lines 212 to 234): missing
credentials or an unresolvable token raise HTTP 401, modelled as `none`. -/
def get_current_user_id (db : List Doc) (now : Nat) (cred : Option Token) : Option String :=
  match cred with
  | none => none
  | some tok => unified_get_user_from_token db now tok

/-- An Authorization header as dispatched by get_user_id_flexible: absent, a
Bearer token, a Basic blob (abstracted by the outcome of base64-decoding the
part after the prefix), or anything else. -/
inductive Authorization where
  | missing : Authorization
  | bearer : Token → Authorization
  | basic : Option String → Authorization
  | malformed : Authorization

/-- get_user_id_flexible (src/app/auth.py lines 236 to 272).  The Basic
branch base64-decodes the blob, splits on the first colon into email and
password (no colon makes the tuple unpacking raise, caught below), then looks
the email up in MongoDB; the password is never compared against anything.
Every failing path raises HTTP 401, modelled as `none`. -/
def get_user_id_flexible (db : List Doc) (now : Nat) : Authorization → Option String
  | .missing => none
  | .bearer tok => unified_get_user_from_token db now tok
  | .basic dec =>
    match dec with
    | none => none
    | some s =>
      match splitFirst ':' s.data with
      | none => none
      | some (e, _pw) =>
        match get_user_id_from_email db (String.mk e) with
        | none => none
        | some uid => if uid = "" then none else some uid
  | .malformed => none

/-- Task priority enum from app/models.py, values used by openai_service.py
(`Priority.MEDIUM`, `goal.priority`). -/
inductive Priority where
  | HIGH : Priority
  | MEDIUM : Priority
  | LOW : Priority
deriving DecidableEq, Repr

/-- Goal model fields, reconstructed from every access in
src/app/services/openai_service.py (title, description, category, priority,
progress, target_date, id). -/
structure Goal where
  id : String
  title : String
  description : Option String
  category : Option String
  priority : Priority
  progress : Nat
  target_date : Option Nat
deriving DecidableEq, Repr

/-- TaskCreate fields, reconstructed from the construction sites in
openai_service.py. -/
structure TaskCreate where
  title : String
  description : String
  priority : Priority
  estimated_duration : Option Nat
  tags : List String
  goal_id : String
deriving DecidableEq, Repr

/-- TaskGenerationResponse fields, from its construction sites in
openai_service.py. -/
structure TaskGenerationResponse where
  tasks : List TaskCreate
  reasoning : String
deriving DecidableEq, Repr

/-- Journal model fields accessed by openai_service.py.  Mood levels are the
integers 1 to 5; timestamps are Unix seconds. -/
structure Journal where
  title : Option String
  content : String
  mood_level : Option Nat
  created_at : Nat
deriving DecidableEq, Repr

/-- JournalSummaryResponse fields, from its construction sites in
openai_service.py.  Sentiment scores in the source are floats in [-1, 1];
every concrete value the fallback paths produce is 0.0, so they are modelled
as integers. -/
structure JournalSummaryResponse where
  summary : String
  key_themes : List String
  sentiment_score : Int
  mood_analysis : String
deriving DecidableEq, Repr

/-- MoodAnalysisResponse fields, from its construction sites in
openai_service.py, with the same integer modelling of the float sentiment. -/
structure MoodAnalysisResponse where
  overall_sentiment : Int
  mood_trend : String
  insights : List String
  recommendations : List String
deriving DecidableEq, Repr

/-- Python `x or default` on an optional string: `None` and the empty string
are both falsy. -/
def pyOr (s : Option String) (d : String) : String :=
  match s with
  | none => d
  | some t => if t = "" then d else t

/-- OpenAIService._generate_fallback_tasks
(src/app/services/openai_service.py lines 159 to 190): three templated tasks
echoing the goal title, priorities and description taken from the goal. -/
def _generate_fallback_tasks (goal : Goal) : TaskGenerationResponse :=
  { tasks :=
      [ { title := "Plan your approach to " ++ goal.title
          description := "Break down this goal into smaller, manageable steps"
          priority := goal.priority
          estimated_duration := some 45
          tags := ["planning"]
          goal_id := goal.id }
      , { title := "Research strategies for " ++ goal.title
          description := "Look up best practices and methods to achieve this goal"
          priority := Priority.MEDIUM
          estimated_duration := some 60
          tags := ["research"]
          goal_id := goal.id }
      , { title := "Take first action toward " ++ goal.title
          description := pyOr goal.description "Start with the most obvious first step"
          priority := goal.priority
          estimated_duration := some 30
          tags := ["action"]
          goal_id := goal.id } ]
    reasoning := "Generated fallback tasks - OpenAI API not available" }

/-- OpenAIService.generate_tasks_for_goal (src/app/services/openai_service.py
lines 63 to 157).  `cfg` is `self.is_configured`; `ext` abstracts the whole
`try` block around the OpenAI call: `none` is any exception (network, JSON
parse, shape conversion), `some r` a successfully parsed and converted
result.  The `request` and `existing_tasks` arguments only shape the prompt
and are absorbed into `ext`. -/
def generate_tasks_for_goal (cfg : Bool) (ext : Option TaskGenerationResponse)
    (goal : Goal) : TaskGenerationResponse :=
  if cfg = false then _generate_fallback_tasks goal
  else
    match ext with
    | some r => r
    | none => _generate_fallback_tasks goal

/-- OpenAIService._generate_fallback_journal_summary
(src/app/services/openai_service.py lines 463 to 470): a constant neutral
summary. -/
def _generate_fallback_journal_summary : JournalSummaryResponse :=
  { summary := "Journal entry recorded successfully. (AI analysis not available - OpenAI API not configured)"
    key_themes := ["reflection", "personal growth"]
    sentiment_score := 0
    mood_analysis := "AI mood analysis is currently unavailable. Please check back later." }

/-- OpenAIService.summarize_journal (src/app/services/openai_service.py lines
406 to 461), with the same `cfg` and `ext` abstraction as above. -/
def summarize_journal (cfg : Bool) (ext : Option JournalSummaryResponse)
    (_journal : Journal) : JournalSummaryResponse :=
  if cfg = false then _generate_fallback_journal_summary
  else
    match ext with
    | some r => r
    | none => _generate_fallback_journal_summary

/-- OpenAIService._generate_fallback_mood_analysis
(src/app/services/openai_service.py lines 546 to 561): neutral sentiment,
stable trend, insights that state the number of entries the analysis is based
on. -/
def _generate_fallback_mood_analysis (journal_count : Nat) : MoodAnalysisResponse :=
  { overall_sentiment := 0
    mood_trend := "stable"
    insights :=
      [ "Analysis based on " ++ toString journal_count ++ " journal entries"
      , "AI mood analysis currently unavailable"
      , "Continue journaling for better insights" ]
    recommendations :=
      [ "Continue journaling regularly"
      , "Focus on mindfulness and self-reflection"
      , "Check back later for AI-powered insights" ] }

/-- OpenAIService.analyze_mood_patterns (src/app/services/openai_service.py
lines 472 to 544).  When unconfigured the fallback is returned immediately;
when configured an empty journal list returns the dedicated no-entries
response before any network call; otherwise the external outcome `ext` is
used, with any exception falling back. -/
def analyze_mood_patterns (cfg : Bool) (ext : Option MoodAnalysisResponse)
    (journals : List Journal) : MoodAnalysisResponse :=
  if cfg = false then _generate_fallback_mood_analysis journals.length
  else if journals.isEmpty then
    { overall_sentiment := 0
      mood_trend := "neutral"
      insights := ["No journal entries found for analysis"]
      recommendations := ["Start journaling regularly to track mood patterns"] }
  else
    match ext with
    | some r => r
    | none => _generate_fallback_mood_analysis journals.length

/-- Whether the first list is an initial segment of the second. -/
def leadsWith : List Char → List Char → Bool
  | [], _ => true
  | _ :: _, [] => false
  | p :: ps, c :: cs => p = c && leadsWith ps cs

/-- Whether `pat` occurs as a contiguous segment of the second list. -/
def hasSub (pat : List Char) : List Char → Bool
  | [] => leadsWith pat []
  | c :: cs => leadsWith pat (c :: cs) || hasSub pat cs

/-- Substring test on strings: whether `pat` occurs inside `s`. -/
def mentions (pat s : String) : Bool :=
  hasSub pat.data s.data

/-- Whether an insight string explicitly states that no (zero) journal
entries were available: it mentions either "No journal entries" (the
configured empty-input response) or "0 journal entries" (the fallback
response for an empty input). -/
def statesNoEntries (s : String) : Bool :=
  mentions "No journal entries" s || mentions "0 journal entries" s

/-- Partial update payload (the `UserUpdate` Pydantic model).  Modelled from
the spec: app/models.py is absent from the sources; §4.3 and §6 of the spec
describe updates as partial-field merges over the stored fields, and the
update endpoints in src/app/api/users.py construct payloads such as
`UserUpdate(has_completed_onboarding=...)`.  Every updatable stored field is
represented by an optional entry; `none` models a field left as Python
`None`. -/
structure UserUpdate where
  name : Option String := none
  has_completed_onboarding : Option Bool := none
  streak : Option Nat := none
  level : Option String := none
  theme : Option String := none
deriving DecidableEq, Repr

/-- Whether the dictionary comprehension `{k: v for k, v in
update_data.dict().items() if v is not None}` is nonempty. -/
def hasUpdates (u : UserUpdate) : Bool :=
  u.name.isSome || u.has_completed_onboarding.isSome || u.streak.isSome ||
    u.level.isSome || u.theme.isSome

/-- Semantics of `update_one(filter, {"$set": update_dict})` on a matched
document: every supplied field is overwritten, `updated_at` is set to the
server time, everything else is untouched. -/
def applyUpdate (d : UserDoc) (u : UserUpdate) (now : Nat) : UserDoc :=
  { d with
    name := u.name.getD d.name
    has_completed_onboarding := u.has_completed_onboarding.getD d.has_completed_onboarding
    streak := u.streak.getD d.streak
    level := u.level.getD d.level
    theme := u.theme.getD d.theme
    updated_at := now }

/-- Model of `update_one({"_id": k}, ...)` followed by `find_one({"_id": k})`:
rewrite the first document whose key is `k` with `f` and return the new
collection together with the rewritten document; `none` when nothing matched
(matched_count is 0 and the collection is unchanged). -/
def updateFirst (db : List Doc) (k : MongoId) (f : UserDoc → UserDoc) :
    Option (List Doc × UserDoc) :=
  match db with
  | [] => none
  | d :: rest =>
    if d.key = k then some (({ key := d.key, user := f d.user } : Doc) :: rest, f d.user)
    else (updateFirst rest k f).map (fun p => (d :: p.1, p.2))

/-- UserRepository.update_user (src/app/repositories/user_repository.py lines
95 to 156).  An all-None payload performs no write and returns the current
record via get_user_by_id.  Otherwise the non-None fields plus a fresh
`updated_at` are `$set`: first with the plain string key, then, if nothing
matched, with `ObjectId(user_id)` (whose constructor raises on an invalid
string, caught); the rewritten document is re-read and returned.  The result
pairs the collection after the call with the returned optional user. -/
def update_user (db : List Doc) (user_id : String) (upd : UserUpdate) (now : Nat) :
    List Doc × Option User :=
  if hasUpdates upd = false then (db, get_user_by_id db user_id)
  else
    match updateFirst db (.str user_id) (fun d => applyUpdate d upd now) with
    | some (db', u') => (db', some (userOfDoc { key := .str user_id, user := u' }))
    | none =>
      if isValidObjectId user_id then
        match updateFirst db (.oid user_id) (fun d => applyUpdate d upd now) with
        | some (db', u') => (db', some (userOfDoc { key := .oid user_id, user := u' }))
        | none => (db, none)
      else (db, none)

/-- Concrete stored user record used by the executable witnesses. -/
def aliceDoc : UserDoc :=
  { email := "alice@example.com"
    name := "Alice"
    has_completed_onboarding := false
    streak := 0
    level := "Mindful Novice"
    theme := "light"
    created_at := 100
    updated_at := 100 }

/-- Concrete single-user collection, keyed by the plain string "u1". -/
def demoDb : List Doc := [{ key := .str "u1", user := aliceDoc }]

/-- Concrete JWT claim set with the configured issuer, a known email and an
`exp` claim of 0, a timestamp lying in the past. -/
def pExpZero : JwtPayload :=
  { iss := some supabase_url
    exp := some 0
    email := some "alice@example.com"
    sub := some "sb-1" }

/-- Concrete JWT claim set with the configured issuer, a known email and a
nonzero `exp` claim of 5, in the past for `now = 10`. -/
def pExpFive : JwtPayload :=
  { iss := some supabase_url
    exp := some 5
    email := some "alice@example.com"
    sub := some "sb-1" }

/-- Concrete credential whose JWT decoding yields `pExpZero`. -/
def tokExpZero : Token :=
  { jwtPayload := some pExpZero
    b64 := none }

/-- Concrete credential whose JWT decoding yields `pExpFive`. -/
def tokExpFive : Token :=
  { jwtPayload := some pExpFive
    b64 := none }

/-- Concrete legacy credential: the base64 blob decodes to
"u1:alice@example.com", and a JWT decode of a dot-free base64 string fails. -/
def tokLegacy : Token :=
  { jwtPayload := none
    b64 := some "u1:alice@example.com" }

/-- Concrete 24-hex-character identifier string for the repository
witnesses. -/
def hexId : String := "0123456789abcdef01234567"

/-- Helper: splitting at the first separator of `e ++ sep :: rest` when `e`
is separator-free yields `(e, rest)`, mirroring Python `split(sep, 1)`. -/
theorem splitFirst_append (sep : Char) (e rest : List Char) (he : sep ∉ e) :
    splitFirst sep (e ++ sep :: rest) = some (e, rest) := by
  induction e with
  | nil => simp [splitFirst]
  | cons c cs ih =>
    have hc : ¬ c = sep := fun h => he (by rw [h]; exact List.mem_cons_self _ _)
    have ih' := ih (fun h => he (List.mem_cons_of_mem c h))
    simp [splitFirst, hc, ih']

/-- C9: verify_jwt_token rejects a token for expiration only when the `exp`
claim is present and nonzero; with the configured issuer, a payload whose
`exp` claim is absent, null, or zero is accepted unchanged, whatever the
current time. -/
theorem verify_jwt_token_accepts_missing_or_zero_exp
    (p : JwtPayload) (now : Nat)
    (hiss : p.iss = some supabase_url)
    (hexp : p.exp = none ∨ p.exp = some 0) :
    verify_jwt_token (some p) now = some p := by
  rcases hexp with h | h <;> simp [verify_jwt_token, hiss, h]

/-- Witness for C9 at a concrete payload with `exp` equal to zero and a
large current time. -/
theorem verify_jwt_token_accepts_missing_or_zero_exp_witness :
    verify_jwt_token (some pExpZero) 1000000 = some pExpZero :=
  verify_jwt_token_accepts_missing_or_zero_exp pExpZero 1000000 rfl (Or.inr rfl)

/-- C1 counterexample: a JWT whose `exp` claim is 0 — a timestamp lying in
the past — with a valid issuer and a known email is accepted, and resolution
succeeds instead of failing: `exp` is falsy in Python, so the expiration
branch is skipped. -/
theorem expired_zero_exp_token_accepted :
    tokExpZero.jwtPayload.map JwtPayload.exp = some (some 0)
    ∧ (0 : Nat) < 1000000
    ∧ unified_get_user_from_token demoDb 1000000 tokExpZero = some "u1"
    ∧ get_current_user_id demoDb 1000000 (some tokExpZero) = some "u1" :=
  ⟨rfl, by decide, rfl, rfl⟩

/-- C1 as amended: for every JWT credential whose `exp` claim is present,
nonzero and strictly in the past, the Supabase JWT path fails regardless of
the other claims, and unified resolution degenerates to the legacy fallback
alone. -/
theorem nonzero_expired_jwt_fails_supabase_path
    (db : List Doc) (now : Nat) (tok : Token) (p : JwtPayload) (e : Nat)
    (hp : tok.jwtPayload = some p)
    (he : p.exp = some e) (hne : e ≠ 0) (hlt : e < now) :
    supabase_get_user_from_token db now tok = none
    ∧ unified_get_user_from_token db now tok = legacy_resolve db tok.b64 := by
  have hv : verify_jwt_token tok.jwtPayload now = none := by
    rw [hp]
    by_cases hi : p.iss = some supabase_url
    · simp [verify_jwt_token, hi, he, hne, hlt]
    · simp [verify_jwt_token, hi]
  have hs : supabase_get_user_from_token db now tok = none := by
    simp [supabase_get_user_from_token, hv]
  exact ⟨hs, by simp [unified_get_user_from_token, hs]⟩

/-- Witness for the amended C1 at a concrete expired token. -/
theorem nonzero_expired_jwt_fails_supabase_path_witness :
    supabase_get_user_from_token demoDb 10 tokExpFive = none
    ∧ unified_get_user_from_token demoDb 10 tokExpFive =
        legacy_resolve demoDb tokExpFive.b64 :=
  nonzero_expired_jwt_fails_supabase_path demoDb 10 tokExpFive pExpFive
    5 rfl rfl (by decide) (by decide)

/-- C3: mood analysis over an empty list of journal entries returns (never
raises) a response with neutral overall sentiment 0 whose insights contain an
explicit zero-entries statement, whether or not the service is configured and
whatever the external outcome. -/
theorem mood_analysis_empty_entries_neutral
    (cfg : Bool) (ext : Option MoodAnalysisResponse) :
    (analyze_mood_patterns cfg ext []).overall_sentiment = 0
    ∧ (analyze_mood_patterns cfg ext []).insights.any statesNoEntries = true := by
  cases cfg
  · refine ⟨rfl, ?_⟩
    show (_generate_fallback_mood_analysis (List.length [])).insights.any statesNoEntries = true
    decide
  · refine ⟨rfl, ?_⟩
    show (["No journal entries found for analysis"].any statesNoEntries) = true
    decide

/-- C5: the generation facade is total and of the matching variant: when
unconfigured it returns the deterministic fallback whatever the external
outcome (no network call), on any exception (`none` outcome) it returns the
same fallback, and the mood analyzer handles empty and nonempty inputs
without error. -/
theorem ai_facade_total_fallback
    (g : Goal) (j : Journal)
    (e : Option TaskGenerationResponse) (s : Option JournalSummaryResponse)
    (m : Option MoodAnalysisResponse) :
    generate_tasks_for_goal false e g = _generate_fallback_tasks g
    ∧ generate_tasks_for_goal true none g = _generate_fallback_tasks g
    ∧ summarize_journal false s j = _generate_fallback_journal_summary
    ∧ summarize_journal true none j = _generate_fallback_journal_summary
    ∧ (∀ js : List Journal,
        analyze_mood_patterns false m js = _generate_fallback_mood_analysis js.length)
    ∧ (∀ (j0 : Journal) (js : List Journal),
        analyze_mood_patterns true none (j0 :: js) =
          _generate_fallback_mood_analysis (j0 :: js).length)
    ∧ analyze_mood_patterns true m [] =
        { overall_sentiment := 0
          mood_trend := "neutral"
          insights := ["No journal entries found for analysis"]
          recommendations := ["Start journaling regularly to track mood patterns"] } :=
  ⟨rfl, rfl, rfl, rfl, fun _ => rfl, fun _ _ => rfl, rfl⟩

/-- C6: fallback generation is deterministic and depends on nothing but the
input: with the service unconfigured, two facade calls with identical input
and arbitrary (even different) external outcomes return the same pure
fallback value. -/
theorem fallback_generation_deterministic
    (g : Goal) (j : Journal) (js : List Journal)
    (e1 e2 : Option TaskGenerationResponse)
    (s1 s2 : Option JournalSummaryResponse)
    (m1 m2 : Option MoodAnalysisResponse) :
    generate_tasks_for_goal false e1 g = generate_tasks_for_goal false e2 g
    ∧ generate_tasks_for_goal false e1 g = _generate_fallback_tasks g
    ∧ summarize_journal false s1 j = summarize_journal false s2 j
    ∧ summarize_journal false s1 j = _generate_fallback_journal_summary
    ∧ analyze_mood_patterns false m1 js = analyze_mood_patterns false m2 js
    ∧ analyze_mood_patterns false m1 js = _generate_fallback_mood_analysis js.length :=
  ⟨rfl, rfl, rfl, rfl, rfl, rfl⟩

/-- C7: for every goal titled "Learn Spanish", fallback task generation
produces at least one task whose title contains the substring
"Learn Spanish". -/
theorem fallback_tasks_echo_goal_title
    (g : Goal) (h : g.title = "Learn Spanish") :
    (_generate_fallback_tasks g).tasks.any
      (fun t => mentions "Learn Spanish" t.title) = true := by
  have h1 : mentions "Learn Spanish" ("Plan your approach to " ++ g.title) = true := by
    rw [h]; decide
  simp [_generate_fallback_tasks, List.any_cons, h1]

/-- Witness for C7 at a concrete goal titled "Learn Spanish". -/
theorem fallback_tasks_echo_goal_title_witness :
    (_generate_fallback_tasks
      { id := "g1", title := "Learn Spanish", description := none,
        category := none, priority := Priority.HIGH, progress := 0,
        target_date := none }).tasks.any
      (fun t => mentions "Learn Spanish" t.title) = true :=
  fallback_tasks_echo_goal_title _ rfl

/-- C2 counterexample: a Basic header whose decoded pair is a known user
email with an arbitrary wrong password authenticates, even though the pair is
not the fixed development credentials — get_user_id_flexible never consults
the password nor verify_credentials. -/
theorem basic_auth_wrong_password_accepted :
    get_user_id_flexible demoDb 0 (.basic (some "alice@example.com:nonsense")) = some "u1"
    ∧ verify_credentials "alice@example.com" "nonsense" = false
    ∧ ¬ ("alice@example.com" = settings_mock_user_email
          ∧ "nonsense" = settings_mock_user_password) :=
  ⟨rfl, by decide, by decide⟩

/-- C2 as amended: the Basic branch of get_user_id_flexible authenticates
exactly when the part of the decoded blob before the first colon is the email
of an existing user; the password part is ignored (the result is identical
for any two passwords) and the fixed development credentials play no role. -/
theorem basic_auth_ignores_password
    (db : List Doc) (now : Nat) (e pw pw' : List Char) (he : ':' ∉ e) :
    get_user_id_flexible db now (.basic (some (String.mk (e ++ ':' :: pw)))) =
      get_user_id_flexible db now (.basic (some (String.mk (e ++ ':' :: pw'))))
    ∧ (∀ u : User, get_user_by_email db (String.mk e) = some u → u.id ≠ "" →
        get_user_id_flexible db now (.basic (some (String.mk (e ++ ':' :: pw)))) = some u.id)
    ∧ (get_user_by_email db (String.mk e) = none →
        get_user_id_flexible db now (.basic (some (String.mk (e ++ ':' :: pw)))) = none) := by
  have hs : splitFirst ':' (String.mk (e ++ ':' :: pw)).data = some (e, pw) :=
    splitFirst_append ':' e pw he
  have hs' : splitFirst ':' (String.mk (e ++ ':' :: pw')).data = some (e, pw') :=
    splitFirst_append ':' e pw' he
  refine ⟨?_, ?_, ?_⟩
  · simp [get_user_id_flexible, hs, hs']
  · intro u hu hid
    simp [get_user_id_flexible, hs, get_user_id_from_email, hu, hid]
  · intro hn
    simp [get_user_id_flexible, hs, get_user_id_from_email, hn]

/-- Witness for the amended C2: two different passwords for the same known
email give the same (successful) outcome. -/
theorem basic_auth_ignores_password_witness :
    get_user_id_flexible demoDb 0
        (.basic (some (String.mk ("alice@example.com".data ++ ':' :: "pw1".data)))) =
      get_user_id_flexible demoDb 0
        (.basic (some (String.mk ("alice@example.com".data ++ ':' :: "pw2".data)))) :=
  (basic_auth_ignores_password demoDb 0 "alice@example.com".data "pw1".data
    "pw2".data (by decide)).1

/-- C4: a legacy credential that base64-decodes to a string with a colon,
whose substring after the first colon is the email of an existing user,
resolves through unified_get_user_from_token to exactly that user id (the
JWT decode of a dot-free base64 string fails, which is the `hj`
hypothesis). -/
theorem legacy_token_known_email_resolves
    (db : List Doc) (now : Nat) (tok : Token) (s : String)
    (idp em : List Char) (u : User)
    (hj : tok.jwtPayload = none)
    (hb : tok.b64 = some s)
    (hs : splitFirst ':' s.data = some (idp, em))
    (hne : String.mk em ≠ "")
    (hu : get_user_by_email db (String.mk em) = some u)
    (hid : u.id ≠ "") :
    unified_get_user_from_token db now tok = some u.id := by
  have hsup : supabase_get_user_from_token db now tok = none := by
    simp [supabase_get_user_from_token, verify_jwt_token, hj]
  have hdec : decode_mock_token tok.b64 = some (String.mk em) := by
    simp [decode_mock_token, hb, hs]
  simp [unified_get_user_from_token, hsup, legacy_resolve, hdec, hne,
    get_user_id_from_email, hu, hid]

/-- Witness for C4 at the concrete credential decoding to
"u1:alice@example.com". -/
theorem legacy_token_known_email_resolves_witness :
    unified_get_user_from_token demoDb 0 tokLegacy = some "u1" :=
  legacy_token_known_email_resolves demoDb 0 tokLegacy
    "u1:alice@example.com" "u1".data "alice@example.com".data
    (userOfDoc { key := .str "u1", user := aliceDoc })
    rfl rfl (by decide) (by decide) (by decide) (by decide)

/-- C8: for a valid 24-hex identifier, get_user_by_id returns the same user
record whether the document is stored under the structured ObjectId key or
under the plain string key: the ObjectId query is tried first, the string
query is the fallback, and both results stringify the key. -/
theorem get_user_by_id_representation_transparent
    (id : String) (u : UserDoc) (db1 db2 : List Doc)
    (hv : isValidObjectId id = true)
    (h1 : find_one_by_id db1 (.oid id) = some { key := .oid id, user := u })
    (h2 : find_one_by_id db2 (.oid id) = none)
    (h3 : find_one_by_id db2 (.str id) = some { key := .str id, user := u }) :
    get_user_by_id db1 id = some (userOfDoc { key := .oid id, user := u })
    ∧ get_user_by_id db2 id = some (userOfDoc { key := .str id, user := u })
    ∧ get_user_by_id db1 id = get_user_by_id db2 id := by
  have e1 : get_user_by_id db1 id = some (userOfDoc { key := .oid id, user := u }) := by
    simp [get_user_by_id, hv, h1]
  have e2 : get_user_by_id db2 id = some (userOfDoc { key := .str id, user := u }) := by
    simp [get_user_by_id, hv, h2, h3]
  exact ⟨e1, e2, by rw [e1, e2]; exact rfl⟩

/-- Witness for C8: the same record stored under the ObjectId key and under
the string form of the same identifier yields the same lookup result. -/
theorem get_user_by_id_representation_transparent_witness :
    get_user_by_id [{ key := .oid hexId, user := aliceDoc }] hexId =
      get_user_by_id [{ key := .str hexId, user := aliceDoc }] hexId :=
  (get_user_by_id_representation_transparent hexId aliceDoc
    [{ key := .oid hexId, user := aliceDoc }]
    [{ key := .str hexId, user := aliceDoc }]
    (by decide) (by decide) (by decide) (by decide)).2.2

/-- Helper: a successful updateFirst call decomposes the collection into a
prefix without rewriting, the single rewritten document, and an untouched
suffix. -/
theorem updateFirst_some (k : MongoId) (f : UserDoc → UserDoc) :
    ∀ (db db' : List Doc) (u' : UserDoc),
      updateFirst db k f = some (db', u') →
      ∃ pre d post, db = pre ++ d :: post ∧ d.key = k
        ∧ db' = pre ++ ({ key := d.key, user := f d.user } : Doc) :: post
        ∧ u' = f d.user := by
  intro db
  induction db with
  | nil => intro db' u' h; simp [updateFirst] at h
  | cons d rest ih =>
    intro db' u' h
    simp only [updateFirst] at h
    by_cases hk : d.key = k
    · rw [if_pos hk] at h
      have h1 : db' = ({ key := d.key, user := f d.user } : Doc) :: rest :=
        (congrArg Prod.fst (Option.some.inj h)).symm
      have h2 : u' = f d.user :=
        (congrArg Prod.snd (Option.some.inj h)).symm
      exact ⟨[], d, rest, by simp, hk, by simp [h1], h2⟩
    · rw [if_neg hk] at h
      cases hrec : updateFirst rest k f with
      | none => rw [hrec] at h; simp at h
      | some p =>
        rw [hrec] at h
        obtain ⟨p1, p2⟩ := p
        simp only [Option.map_some'] at h
        have h1 : d :: p1 = db' := congrArg Prod.fst (Option.some.inj h)
        have h2 : p2 = u' := congrArg Prod.snd (Option.some.inj h)
        obtain ⟨pre, d0, post, hdb, hkey, hdb', hu⟩ := ih p1 p2 hrec
        refine ⟨d :: pre, d0, post, ?_, hkey, ?_, ?_⟩
        · rw [hdb]; simp
        · rw [← h1, hdb']; simp
        · rw [← h2, hu]

/-- C10: with an all-None payload update_user performs no write and returns
the current record via get_user_by_id; with at least one supplied field, a
successful update rewrites exactly one document — matched by string key or by
ObjectId key — leaving every other document untouched, setting exactly the
supplied fields plus `updated_at`, and preserving every unsupplied field,
the email and `created_at`. -/
theorem update_user_frame
    (db : List Doc) (user_id : String) (upd : UserUpdate) (now : Nat) :
    (hasUpdates upd = false → update_user db user_id upd now = (db, get_user_by_id db user_id))
    ∧ (hasUpdates upd = true →
        ∀ (db' : List Doc) (ur : User),
          update_user db user_id upd now = (db', some ur) →
          ∃ pre d post,
            db = pre ++ d :: post
            ∧ (d.key = MongoId.str user_id ∨ d.key = MongoId.oid user_id)
            ∧ db' = pre ++ ({ key := d.key, user := applyUpdate d.user upd now } : Doc) :: post
            ∧ ur = userOfDoc { key := d.key, user := applyUpdate d.user upd now }
            ∧ ur.updated_at = now
            ∧ ur.email = d.user.email
            ∧ ur.created_at = d.user.created_at
            ∧ (upd.name = none → ur.name = d.user.name)
            ∧ (upd.has_completed_onboarding = none →
                ur.has_completed_onboarding = d.user.has_completed_onboarding)
            ∧ (upd.streak = none → ur.streak = d.user.streak)
            ∧ (upd.level = none → ur.level = d.user.level)
            ∧ (upd.theme = none → ur.theme = d.user.theme)
            ∧ (∀ v, upd.name = some v → ur.name = v)
            ∧ (∀ v, upd.has_completed_onboarding = some v → ur.has_completed_onboarding = v)
            ∧ (∀ v, upd.streak = some v → ur.streak = v)
            ∧ (∀ v, upd.level = some v → ur.level = v)
            ∧ (∀ v, upd.theme = some v → ur.theme = v)) := by
  constructor
  · intro h0
    simp [update_user, h0]
  · intro h1 db' ur heq
    cases hs : updateFirst db (MongoId.str user_id) (fun d => applyUpdate d upd now) with
    | some p =>
      obtain ⟨db2, u2⟩ := p
      unfold update_user at heq
      simp [h1, hs] at heq
      obtain ⟨hdb', hur⟩ := heq
      obtain ⟨pre, d0, post, hdb, hkey, hdb2, hu2⟩ :=
        updateFirst_some (MongoId.str user_id) (fun d => applyUpdate d upd now) db db2 u2 hs
      have hdbeq : db' = pre ++ ({ key := d0.key, user := applyUpdate d0.user upd now } : Doc) :: post := by
        rw [← hdb', hdb2]
      have hureq : ur = userOfDoc { key := d0.key, user := applyUpdate d0.user upd now } := by
        rw [← hur, hu2, ← hkey]
      subst hureq
      refine ⟨pre, d0, post, hdb, Or.inl hkey, hdbeq, rfl,
        by simp [userOfDoc, applyUpdate],
        by simp [userOfDoc, applyUpdate],
        by simp [userOfDoc, applyUpdate],
        fun hn => by simp [userOfDoc, applyUpdate, hn],
        fun hn => by simp [userOfDoc, applyUpdate, hn],
        fun hn => by simp [userOfDoc, applyUpdate, hn],
        fun hn => by simp [userOfDoc, applyUpdate, hn],
        fun hn => by simp [userOfDoc, applyUpdate, hn],
        fun v hv => by simp [userOfDoc, applyUpdate, hv],
        fun v hv => by simp [userOfDoc, applyUpdate, hv],
        fun v hv => by simp [userOfDoc, applyUpdate, hv],
        fun v hv => by simp [userOfDoc, applyUpdate, hv],
        fun v hv => by simp [userOfDoc, applyUpdate, hv]⟩
    | none =>
      unfold update_user at heq
      simp [h1, hs] at heq
      by_cases hv : isValidObjectId user_id = true
      · cases ho : updateFirst db (MongoId.oid user_id) (fun d => applyUpdate d upd now) with
        | some p =>
          obtain ⟨db2, u2⟩ := p
          simp [hv, ho] at heq
          obtain ⟨hdb', hur⟩ := heq
          obtain ⟨pre, d0, post, hdb, hkey, hdb2, hu2⟩ :=
            updateFirst_some (MongoId.oid user_id) (fun d => applyUpdate d upd now) db db2 u2 ho
          have hdbeq : db' = pre ++ ({ key := d0.key, user := applyUpdate d0.user upd now } : Doc) :: post := by
            rw [← hdb', hdb2]
          have hureq : ur = userOfDoc { key := d0.key, user := applyUpdate d0.user upd now } := by
            rw [← hur, hu2, ← hkey]
          subst hureq
          refine ⟨pre, d0, post, hdb, Or.inr hkey, hdbeq, rfl,
            by simp [userOfDoc, applyUpdate],
            by simp [userOfDoc, applyUpdate],
            by simp [userOfDoc, applyUpdate],
            fun hn => by simp [userOfDoc, applyUpdate, hn],
            fun hn => by simp [userOfDoc, applyUpdate, hn],
            fun hn => by simp [userOfDoc, applyUpdate, hn],
            fun hn => by simp [userOfDoc, applyUpdate, hn],
            fun hn => by simp [userOfDoc, applyUpdate, hn],
            fun v hv => by simp [userOfDoc, applyUpdate, hv],
            fun v hv => by simp [userOfDoc, applyUpdate, hv],
            fun v hv => by simp [userOfDoc, applyUpdate, hv],
            fun v hv => by simp [userOfDoc, applyUpdate, hv],
            fun v hv => by simp [userOfDoc, applyUpdate, hv]⟩
        | none => simp [hv, ho] at heq
      · simp [hv] at heq

/-- Witness for C10: an all-None payload on the demo collection performs no
write, and a payload setting only the name rewrites exactly the single
matched document. -/
theorem update_user_frame_witness :
    update_user demoDb "u1" ({} : UserUpdate) 7 = (demoDb, get_user_by_id demoDb "u1")
    ∧ ∃ pre d post,
        demoDb = pre ++ d :: post
        ∧ (d.key = MongoId.str "u1" ∨ d.key = MongoId.oid "u1")
        ∧ (update_user demoDb "u1" { name := some "Bob" } 7).1 =
            pre ++ ({ key := d.key, user := applyUpdate d.user { name := some "Bob" } 7 } : Doc) :: post := by
  refine ⟨(update_user_frame demoDb "u1" {} 7).1 rfl, ?_⟩
  obtain ⟨pre, d, post, h1, h2, h3, _⟩ :=
    (update_user_frame demoDb "u1" { name := some "Bob" } 7).2 rfl
      [({ key := MongoId.str "u1", user := applyUpdate aliceDoc { name := some "Bob" } 7 } : Doc)]
      (userOfDoc { key := MongoId.str "u1", user := applyUpdate aliceDoc { name := some "Bob" } 7 })
      rfl
  exact ⟨pre, d, post, h1, h2, h3⟩
